import Mathlib

/-!
Shallow embedding of picotool's chip-model descriptor and
memory-classification layer (`src/model/model.h`).

C++ 32-bit unsigned arithmetic is embedded as `Nat` with explicit
`% 2^32` where overflow or underflow can occur.  C++ exceptions raised
by `fail(ERROR_NOT_POSSIBLE, msg)` are embedded as `Except` values.
The numeric constants of `addresses.h`, the UF2 family identifiers of
`boot/uf2.h` and the command identifiers of `boot/picoboot.h` are not
part of the visible source fragment and are modelled from the spec
(see the doc comments below).
-/

/-- Memory classification tags, from `enum memory_type` in the source. -/
inductive memory_type where
  | rom
  | flash
  | sram
  | sram_unstriped
  | xip_sram
  | invalid
deriving DecidableEq, Repr

/-- Chip generations, from `chip_t` in the source. -/
inductive chip_t where
  | rp2040
  | rp2350
  | unknown
deriving DecidableEq, Repr

/-- Silicon revisions, from `chip_revision_t` in the source. -/
inductive chip_revision_t where
  | rp2040_b0
  | rp2040_b1
  | rp2040_b2
  | rp2350_a2
  | rp2350_a3
  | rp2350_a4
  | unknown_revision
deriving DecidableEq, Repr

/-- Modelled from the spec: the error style of `errors.h` (missing from the
visible fragment).  Unsupported-query failures "fail with a NotPossible
error carrying a human-readable description of the missing field". -/
inductive picotool_error where
  | not_possible (msg : String)
deriving DecidableEq, Repr

/-- Decidable equality of fallible results, so that concrete runs of the
embedded operations can be checked by evaluation. -/
instance {ε α : Type} [DecidableEq ε] [DecidableEq α] :
    DecidableEq (Except ε α)
  | .error a, .error b =>
    if h : a = b then .isTrue (congrArg Except.error h)
    else .isFalse (fun hh => h (Except.error.inj hh))
  | .error _, .ok _ => .isFalse (fun hh => Except.noConfusion hh)
  | .ok _, .error _ => .isFalse (fun hh => Except.noConfusion hh)
  | .ok a, .ok b =>
    if h : a = b then .isTrue (congrArg Except.ok h)
    else .isFalse (fun hh => h (Except.ok.inj hh))

/-- Modelled from the spec: `ROM_START` from `addresses.h` (missing from the
visible fragment); the hardware-derived base of the bootrom, address 0. -/
def ROM_START : Nat := 0x00000000

/-- Modelled from the spec: `ROM_END_RP2040` from `addresses.h`; the
generation-fixed bootrom end of the older generation (16 KiB). -/
def ROM_END_RP2040 : Nat := 0x00004000

/-- Modelled from the spec: `ROM_END_RP2350` from `addresses.h`; the default
bootrom end of the newer generation (32 KiB; the 64 KiB variant uses a
larger value and renames the display name). -/
def ROM_END_RP2350 : Nat := 0x00008000

/-- Modelled from the spec: `FLASH_START` from `addresses.h`; the
hardware-derived XIP flash window base shared by both generations. -/
def FLASH_START : Nat := 0x10000000

/-- Modelled from the spec: `FLASH_END_RP2040` from `addresses.h`. -/
def FLASH_END_RP2040 : Nat := 0x11000000

/-- Modelled from the spec: `FLASH_END_RP2350` from `addresses.h`. -/
def FLASH_END_RP2350 : Nat := 0x12000000

/-- Modelled from the spec: `XIP_SRAM_START_RP2040` from `addresses.h`. -/
def XIP_SRAM_START_RP2040 : Nat := 0x15000000

/-- Modelled from the spec: `XIP_SRAM_END_RP2040` from `addresses.h`. -/
def XIP_SRAM_END_RP2040 : Nat := 0x15004000

/-- Modelled from the spec: `XIP_SRAM_START_RP2350` from `addresses.h`. -/
def XIP_SRAM_START_RP2350 : Nat := 0x13ffc000

/-- Modelled from the spec: `XIP_SRAM_END_RP2350` from `addresses.h`. -/
def XIP_SRAM_END_RP2350 : Nat := 0x14000000

/-- Modelled from the spec: `SRAM_START` from `addresses.h`; the main SRAM
base shared by both generations. -/
def SRAM_START : Nat := 0x20000000

/-- Modelled from the spec: `SRAM_END_RP2040` from `addresses.h`. -/
def SRAM_END_RP2040 : Nat := 0x20042000

/-- Modelled from the spec: `SRAM_END_RP2350` from `addresses.h`. -/
def SRAM_END_RP2350 : Nat := 0x20082000

/-- Modelled from the spec: `MAIN_RAM_BANKED_START` from `addresses.h`; base
of the older generation's banked (unstriped) SRAM alias window. -/
def MAIN_RAM_BANKED_START : Nat := 0x21000000

/-- Modelled from the spec: `MAIN_RAM_BANKED_END` from `addresses.h`. -/
def MAIN_RAM_BANKED_END : Nat := 0x21040000

/-- Modelled from the spec: `RP2040_FAMILY_ID` from `boot/uf2.h` (missing
from the visible fragment); the older generation's fixed UF2 family id. -/
def RP2040_FAMILY_ID : Nat := 0xe48bff56

/-- Modelled from the spec: `RP2350_ARM_S_FAMILY_ID` from `boot/uf2.h`; the
low end of the newer generation's contiguous family-id range. -/
def RP2350_ARM_S_FAMILY_ID : Nat := 0xe48bff59

/-- Modelled from the spec: `RP2350_RISCV_FAMILY_ID` from `boot/uf2.h`; the
alternate-ISA sub-variant's family id, strictly between the secure-ARM and
non-secure-ARM ids. -/
def RP2350_RISCV_FAMILY_ID : Nat := 0xe48bff5a

/-- Modelled from the spec: `RP2350_ARM_NS_FAMILY_ID` from `boot/uf2.h`; the
high end of the newer generation's contiguous family-id range. -/
def RP2350_ARM_NS_FAMILY_ID : Nat := 0xe48bff5b

/-- Modelled from the spec: the `picoboot_cmd_id` protocol command
identifiers from `boot/picoboot.h` (missing from the visible fragment),
embedded as distinct naturals; a `std::set` of them iterates in increasing
numeric order. -/
def PC_EXCLUSIVE_ACCESS : Nat := 0x01

/-- Modelled from the spec: `PC_REBOOT` from `boot/picoboot.h`. -/
def PC_REBOOT : Nat := 0x02

/-- Modelled from the spec: `PC_FLASH_ERASE` from `boot/picoboot.h`. -/
def PC_FLASH_ERASE : Nat := 0x03

/-- Modelled from the spec: `PC_READ` from `boot/picoboot.h`. -/
def PC_READ : Nat := 0x84

/-- Modelled from the spec: `PC_WRITE` from `boot/picoboot.h`. -/
def PC_WRITE : Nat := 0x05

/-- Modelled from the spec: `PC_EXIT_XIP` from `boot/picoboot.h`. -/
def PC_EXIT_XIP : Nat := 0x06

/-- Modelled from the spec: `PC_ENTER_CMD_XIP` from `boot/picoboot.h`. -/
def PC_ENTER_CMD_XIP : Nat := 0x07

/-- Modelled from the spec: `PC_EXEC` from `boot/picoboot.h`. -/
def PC_EXEC : Nat := 0x08

/-- Modelled from the spec: `PC_VECTORIZE_FLASH` from `boot/picoboot.h`; the
legacy command supported only by the older generation. -/
def PC_VECTORIZE_FLASH : Nat := 0x09

/-- Modelled from the spec: `PC_REBOOT2` from `boot/picoboot.h`; newer
generation only. -/
def PC_REBOOT2 : Nat := 0x0a

/-- Modelled from the spec: `PC_GET_INFO` from `boot/picoboot.h`; newer
generation only. -/
def PC_GET_INFO : Nat := 0x8b

/-- Modelled from the spec: `PC_OTP_READ` from `boot/picoboot.h`; newer
generation only. -/
def PC_OTP_READ : Nat := 0x8c

/-- Modelled from the spec: `PC_OTP_WRITE` from `boot/picoboot.h`; newer
generation only. -/
def PC_OTP_WRITE : Nat := 0x0d

/-- The concrete dynamic type of a `model_info` object: which class of the
hierarchy it was constructed as.  This drives virtual dispatch in the
embedding. -/
inductive model_variant where
  | munknown
  | mgeneric
  | mrp2040
  | mrp2350
  | mrp2350_arm_s
  | mrp2350_arm_ns
  | mrp2350_riscv
deriving DecidableEq, Repr

/-- `chip_name` from the source: display name for a chip generation. -/
def chip_name (chip : chip_t) : String :=
  if chip = chip_t.rp2040 then "RP2040"
  else if chip = chip_t.rp2350 then "RP2350"
  else "RP-series"

/-- The state of a `model_info` object: its dynamic type plus the fields of
the base class.  `_family_id` and `_chip_revision` start out uninitialized
in C++ and are set at most once; `none` stands for "never set". -/
structure model_info where
  variant : model_variant
  chip : chip_t
  name : String
  rom_end : Nat
  picoboot_cmds : List Nat
  family_id : Option Nat
  chip_revision : Option chip_revision_t
deriving DecidableEq, Repr

/-- `model_unknown`'s constructor: chip `unknown`, display name
"RP-series", rom end 0x100 (just enough ROM to read the id bytes), no
picoboot commands. -/
def model_unknown : model_info :=
  { variant := .munknown, chip := .unknown, name := chip_name .unknown,
    rom_end := 0x100, picoboot_cmds := [], family_id := none,
    chip_revision := none }

/-- `model_rp_generic`'s constructor: chip `unknown`, rom end 0x100, no
picoboot commands; its region accessors take the union (min start, max
end) across both known generations. -/
def model_rp_generic : model_info :=
  { variant := .mgeneric, chip := .unknown, name := chip_name .unknown,
    rom_end := 0x100, picoboot_cmds := [], family_id := none,
    chip_revision := none }

/-- `model_rp2040`'s constructor: the legacy command set (the `std::set`
literal, kept here in the set's increasing iteration order) and family id
`RP2040_FAMILY_ID` set in the constructor body. -/
def model_rp2040 : model_info :=
  { variant := .mrp2040, chip := .rp2040, name := chip_name .rp2040,
    rom_end := ROM_END_RP2040,
    picoboot_cmds :=
      [PC_EXCLUSIVE_ACCESS, PC_REBOOT, PC_FLASH_ERASE, PC_WRITE,
       PC_EXIT_XIP, PC_ENTER_CMD_XIP, PC_EXEC, PC_VECTORIZE_FLASH,
       PC_READ],
    family_id := some RP2040_FAMILY_ID, chip_revision := none }

/-- `model_rp2350`'s explicit constructor, parameterized by `rom_end`: the
newer command set (in the set's increasing iteration order); the display
name is "RP2350(64k)" when `rom_end > 0x8000`, else "RP2350"; family id is
left unset. -/
def model_rp2350 (re : Nat) : model_info :=
  { variant := .mrp2350, chip := .rp2350,
    name := if re > 0x8000 then "RP2350(64k)" else "RP2350",
    rom_end := re,
    picoboot_cmds :=
      [PC_EXCLUSIVE_ACCESS, PC_REBOOT, PC_FLASH_ERASE, PC_WRITE,
       PC_EXIT_XIP, PC_ENTER_CMD_XIP, PC_EXEC, PC_REBOOT2, PC_OTP_WRITE,
       PC_READ, PC_GET_INFO, PC_OTP_READ],
    family_id := none, chip_revision := none }

/-- `model_rp2350`'s default constructor: delegates to the explicit one
with `ROM_END_RP2350`. -/
def model_rp2350_default : model_info := model_rp2350 ROM_END_RP2350

/-- `model_rp2350_arm_s`'s constructor: the default `model_rp2350` with the
secure-ARM family id set in the constructor body. -/
def model_rp2350_arm_s : model_info :=
  { model_rp2350_default with
    variant := .mrp2350_arm_s,
    family_id := some RP2350_ARM_S_FAMILY_ID }

/-- `model_rp2350_arm_ns`'s constructor: the default `model_rp2350` with
the non-secure-ARM family id set in the constructor body. -/
def model_rp2350_arm_ns : model_info :=
  { model_rp2350_default with
    variant := .mrp2350_arm_ns,
    family_id := some RP2350_ARM_NS_FAMILY_ID }

/-- `model_rp2350_riscv`'s constructor: the default `model_rp2350` with the
alternate-ISA family id set in the constructor body. -/
def model_rp2350_riscv : model_info :=
  { model_rp2350_default with
    variant := .mrp2350_riscv,
    family_id := some RP2350_RISCV_FAMILY_ID }

/-- `model_info::rom_start`: non-virtual, always `ROM_START`. -/
def rom_start (_ : model_info) : Nat := ROM_START

/-- Virtual `flash_start`: fails with NotPossible on the base/Unknown
variant; `model_rp` overrides it with `FLASH_START` for all hardware
variants and the generic model. -/
def flash_start (m : model_info) : Except picotool_error Nat :=
  match m.variant with
  | .munknown => .error (.not_possible "unknown flash start")
  | _ => .ok FLASH_START

/-- Virtual `flash_end`: fails on the base/Unknown variant; the generic
model takes the max across generations; each generation returns its
hardware constant. -/
def flash_end (m : model_info) : Except picotool_error Nat :=
  match m.variant with
  | .munknown => .error (.not_possible "unknown flash end")
  | .mgeneric => .ok (max FLASH_END_RP2040 FLASH_END_RP2350)
  | .mrp2040 => .ok FLASH_END_RP2040
  | _ => .ok FLASH_END_RP2350

/-- Virtual `sram_start`: fails on the base/Unknown variant; `model_rp`
overrides it with `SRAM_START`. -/
def sram_start (m : model_info) : Except picotool_error Nat :=
  match m.variant with
  | .munknown => .error (.not_possible "unknown sram start")
  | _ => .ok SRAM_START

/-- Virtual `sram_end`: fails on the base/Unknown variant; the generic
model takes the max across generations; each generation returns its
hardware constant. -/
def sram_end (m : model_info) : Except picotool_error Nat :=
  match m.variant with
  | .munknown => .error (.not_possible "unknown sram end")
  | .mgeneric => .ok (max SRAM_END_RP2040 SRAM_END_RP2350)
  | .mrp2040 => .ok SRAM_END_RP2040
  | _ => .ok SRAM_END_RP2350

/-- Virtual `xip_sram_start`: fails on the base/Unknown variant; the
generic model takes the min across generations. -/
def xip_sram_start (m : model_info) : Except picotool_error Nat :=
  match m.variant with
  | .munknown => .error (.not_possible "unknown xip sram start")
  | .mgeneric => .ok (min XIP_SRAM_START_RP2040 XIP_SRAM_START_RP2350)
  | .mrp2040 => .ok XIP_SRAM_START_RP2040
  | _ => .ok XIP_SRAM_START_RP2350

/-- Virtual `xip_sram_end`: fails on the base/Unknown variant; the generic
model takes the max across generations. -/
def xip_sram_end (m : model_info) : Except picotool_error Nat :=
  match m.variant with
  | .munknown => .error (.not_possible "unknown xip sram end")
  | .mgeneric => .ok (max XIP_SRAM_END_RP2040 XIP_SRAM_END_RP2350)
  | .mrp2040 => .ok XIP_SRAM_END_RP2040
  | _ => .ok XIP_SRAM_END_RP2350

/-- Virtual `unreadable_rom_start`: the base default is the sentinel
0xffffffff ("no protected region"); `model_rp2350` overrides it with
`rom_end() - 0x200` in 32-bit unsigned arithmetic. -/
def unreadable_rom_start (m : model_info) : Nat :=
  match m.variant with
  | .mrp2350 | .mrp2350_arm_s | .mrp2350_arm_ns | .mrp2350_riscv =>
      (m.rom_end + 2 ^ 32 - 0x200) % 2 ^ 32
  | _ => 0xffffffff

/-- Virtual `unreadable_rom_end`: the base default is the sentinel
0xffffffff; `model_rp2350` overrides it with `rom_end()`. -/
def unreadable_rom_end (m : model_info) : Nat :=
  match m.variant with
  | .mrp2350 | .mrp2350_arm_s | .mrp2350_arm_ns | .mrp2350_riscv =>
      m.rom_end
  | _ => 0xffffffff

/-- `model_info::get_memory_type` (the base virtual implementation): ROM
for addresses in the inclusive range `[rom_start, rom_end]`, else
INVALID. -/
def model_info.get_memory_type (m : model_info) (addr : Nat) : memory_type :=
  if rom_start m ≤ addr ∧ addr ≤ m.rom_end then .rom else .invalid

/-- `model_rp::get_memory_type`: tests the FLASH, SRAM and XIP_SRAM
inclusive ranges in that order, then falls back to the base
implementation; each range accessor can in principle fail, and a failure
propagates (in the source, as a C++ exception). -/
def model_rp.get_memory_type (m : model_info) (addr : Nat) :
    Except picotool_error memory_type :=
  match flash_start m, flash_end m with
  | .error e, _ | _, .error e => .error e
  | .ok fs, .ok fe =>
    if fs ≤ addr ∧ addr ≤ fe then .ok .flash
    else
      match sram_start m, sram_end m with
      | .error e, _ | _, .error e => .error e
      | .ok ss, .ok se =>
        if ss ≤ addr ∧ addr ≤ se then .ok .sram
        else
          match xip_sram_start m, xip_sram_end m with
          | .error e, _ | _, .error e => .error e
          | .ok xs, .ok xe =>
            if xs ≤ addr ∧ addr ≤ xe then .ok .xip_sram
            else .ok (m.get_memory_type addr)

/-- Virtual dispatch for `get_memory_type`: the base/Unknown variant uses
the ROM-only classifier; `model_rp2040` first tests the banked/unstriped
SRAM alias range and then delegates to `model_rp`; all other hardware
variants use `model_rp`'s classifier directly. -/
def get_memory_type (m : model_info) (addr : Nat) :
    Except picotool_error memory_type :=
  match m.variant with
  | .munknown => .ok (m.get_memory_type addr)
  | .mrp2040 =>
      if MAIN_RAM_BANKED_START ≤ addr ∧ addr ≤ MAIN_RAM_BANKED_END then
        .ok .sram_unstriped
      else model_rp.get_memory_type m addr
  | _ => model_rp.get_memory_type m addr

/-- `model_info::supports_picoboot_cmd(cmd)`: membership in the model's
command set. -/
def supports_picoboot_cmd (m : model_info) (cmd : Nat) : Bool :=
  m.picoboot_cmds.contains cmd

/-- The `supports_picoboot_cmd(cmd, failed_device_name)` overload: on an
unsupported command it writes the model's display name to the
out-parameter and returns false; otherwise it returns true leaving the
out-parameter alone.  The out-parameter is threaded as explicit state. -/
def supports_picoboot_cmd_out (m : model_info) (cmd : Nat)
    (failed_device_name : String) : Bool × String :=
  if supports_picoboot_cmd m cmd then (true, failed_device_name)
  else (false, m.name)

/-- `model_info::supports_picoboot_cmds`: iterates the command set (a
`std::set`, i.e. in increasing order of command id — here, the list) and
returns false at the first unsupported command, leaving the rest of the
set unexamined; returns true after the whole set passes. -/
def supports_picoboot_cmds (m : model_info) (cmds : List Nat)
    (failed_device_name : String) : Bool × String :=
  match cmds with
  | [] => (true, failed_device_name)
  | c :: rest =>
    match supports_picoboot_cmd_out m c failed_device_name with
    | (true, s) => supports_picoboot_cmds m rest s
    | (false, s) => (false, s)

/-- Modelled from the spec: `address_range::type` from `addresses.h`
(missing from the visible fragment): whether a range's bytes are
compared/programmed, present-but-skipped, or excluded from an image
view. -/
inductive address_range_type where
  | CONTENTS
  | NO_CONTENTS
  | IGNORE
deriving DecidableEq, Repr

/-- Modelled from the spec: `address_range` from `addresses.h`: an
inclusive interval `[from_, to_]` tagged with a content policy. -/
structure address_range where
  from_ : Nat
  to_ : Nat
  type : address_range_type
deriving DecidableEq, Repr

/-- Modelled from the spec: `address_ranges` from `addresses.h`: an
ordered sequence of address ranges. -/
abbrev address_ranges := List address_range

/-- `address_ranges_flash`: the flash-programming view — flash range with
CONTENTS, sram and xip-sram ranges with NO_CONTENTS, and, only when the
model's chip is the older generation, the banked/unstriped SRAM alias
range with NO_CONTENTS appended.  An accessor failure propagates (in the
source, as a C++ exception). -/
def address_ranges_flash (m : model_info) :
    Except picotool_error address_ranges := do
  let fs ← flash_start m
  let fe ← flash_end m
  let ss ← sram_start m
  let se ← sram_end m
  let xs ← xip_sram_start m
  let xe ← xip_sram_end m
  let base : address_ranges :=
    [⟨fs, fe, .CONTENTS⟩, ⟨ss, se, .NO_CONTENTS⟩, ⟨xs, xe, .NO_CONTENTS⟩]
  if m.chip = .rp2040 then
    return base ++ [⟨MAIN_RAM_BANKED_START, MAIN_RAM_BANKED_END, .NO_CONTENTS⟩]
  else
    return base

/-- `address_ranges_ram`: the RAM-image view — sram and xip-sram ranges
with CONTENTS, rom range with IGNORE. -/
def address_ranges_ram (m : model_info) :
    Except picotool_error address_ranges := do
  let ss ← sram_start m
  let se ← sram_end m
  let xs ← xip_sram_start m
  let xe ← xip_sram_end m
  return [⟨ss, se, .CONTENTS⟩, ⟨xs, xe, .CONTENTS⟩,
          ⟨rom_start m, m.rom_end, .IGNORE⟩]

/-- The process-wide shared singleton `models::unknown` points at a
`model_unknown` object. -/
def models.unknown : model_info := model_unknown

/-- The result of `model_from_family`: either a freshly allocated model
object (`std::make_shared`) or the shared Unknown singleton
(`models::unknown`); the distinction captures C++ object identity. -/
inductive model_t where
  | fresh (m : model_info)
  | shared_unknown
deriving DecidableEq, Repr

/-- The model a `model_t` points at. -/
def model_t.get : model_t → model_info
  | .fresh m => m
  | .shared_unknown => models.unknown

/-- `model_from_family`: the older generation's exact family id gives a
fresh `model_rp2040`; any family id in the inclusive range from the
secure-ARM id to the non-secure-ARM id gives a fresh generic
`model_rp2350` (default constructor); anything else gives the shared
Unknown singleton. -/
def model_from_family (family_id : Nat) : model_t :=
  if family_id = RP2040_FAMILY_ID then .fresh model_rp2040
  else if RP2350_ARM_S_FAMILY_ID ≤ family_id ∧
          family_id ≤ RP2350_ARM_NS_FAMILY_ID then
    .fresh model_rp2350_default
  else .shared_unknown

/-- `contains_unreadable_rom`: the three-disjunct overlap test of the
half-open query range against the half-open protected range, with
`addr + size` computed in 32-bit unsigned arithmetic. -/
def contains_unreadable_rom (addr size : Nat) (m : model_info) : Bool :=
  let s := unreadable_rom_start m
  let e := unreadable_rom_end m
  let b := (addr + size) % 2 ^ 32
  decide ((s ≤ addr ∧ addr < e) ∨ (s < b ∧ b ≤ e) ∨ (addr < s ∧ e < b))

/-- The spec's first-match classifier for hardware variants, written from
the spec's words: test the FLASH, SRAM, XIP_SRAM and ROM inclusive ranges
in that fixed priority order, returning the kind of the first range
containing the address, and INVALID if none does. -/
def spec_first_match (fs fe ss se xs xe re addr : Nat) : memory_type :=
  if fs ≤ addr ∧ addr ≤ fe then .flash
  else if ss ≤ addr ∧ addr ≤ se then .sram
  else if xs ≤ addr ∧ addr ≤ xe then .xip_sram
  else if ROM_START ≤ addr ∧ addr ≤ re then .rom
  else .invalid

/-- The spec's classifier for the older generation, written from the
spec's words: FLASH, SRAM and XIP_SRAM are tested first, then the
banked/unstriped SRAM alias range is tested ahead of the base ROM
fallback. -/
def spec_classify_rp2040 (addr : Nat) : memory_type :=
  if FLASH_START ≤ addr ∧ addr ≤ FLASH_END_RP2040 then .flash
  else if SRAM_START ≤ addr ∧ addr ≤ SRAM_END_RP2040 then .sram
  else if XIP_SRAM_START_RP2040 ≤ addr ∧ addr ≤ XIP_SRAM_END_RP2040 then
    .xip_sram
  else if MAIN_RAM_BANKED_START ≤ addr ∧ addr ≤ MAIN_RAM_BANKED_END then
    .sram_unstriped
  else if ROM_START ≤ addr ∧ addr ≤ ROM_END_RP2040 then .rom
  else .invalid

/-- The spec's reading of the protected-region check: the half-open byte
range `[addr, addr + size)` has a non-empty intersection with the
half-open protected range `[s, e)`, in exact (non-wrapping)
arithmetic. -/
def intersects_unreadable (addr size s e : Nat) : Prop :=
  ∃ x, addr ≤ x ∧ x < addr + size ∧ s ≤ x ∧ x < e

theorem get_memory_type_munknown (addr : Nat) :
    get_memory_type model_unknown addr =
      .ok (if ROM_START ≤ addr ∧ addr ≤ 0x100 then .rom else .invalid) := rfl

theorem get_memory_type_mgeneric (addr : Nat) :
    get_memory_type model_rp_generic addr =
      .ok (spec_first_match FLASH_START (max FLASH_END_RP2040 FLASH_END_RP2350)
        SRAM_START (max SRAM_END_RP2040 SRAM_END_RP2350)
        (min XIP_SRAM_START_RP2040 XIP_SRAM_START_RP2350)
        (max XIP_SRAM_END_RP2040 XIP_SRAM_END_RP2350) 0x100 addr) := by
  simp only [get_memory_type, model_rp.get_memory_type,
    model_info.get_memory_type, flash_start, flash_end, sram_start,
    sram_end, xip_sram_start, xip_sram_end, spec_first_match,
    model_rp_generic, rom_start]
  split_ifs <;> rfl

theorem get_memory_type_mrp2040 (addr : Nat) :
    get_memory_type model_rp2040 addr =
      .ok (if MAIN_RAM_BANKED_START ≤ addr ∧ addr ≤ MAIN_RAM_BANKED_END then
        .sram_unstriped
      else spec_first_match FLASH_START FLASH_END_RP2040 SRAM_START
        SRAM_END_RP2040 XIP_SRAM_START_RP2040 XIP_SRAM_END_RP2040
        ROM_END_RP2040 addr) := by
  simp only [get_memory_type, model_rp.get_memory_type,
    model_info.get_memory_type, flash_start, flash_end, sram_start,
    sram_end, xip_sram_start, xip_sram_end, spec_first_match,
    model_rp2040, rom_start]
  split_ifs <;> rfl

theorem get_memory_type_mrp2350 (addr : Nat) :
    get_memory_type model_rp2350_default addr =
      .ok (spec_first_match FLASH_START FLASH_END_RP2350 SRAM_START
        SRAM_END_RP2350 XIP_SRAM_START_RP2350 XIP_SRAM_END_RP2350
        ROM_END_RP2350 addr) := by
  simp only [get_memory_type, model_rp.get_memory_type,
    model_info.get_memory_type, flash_start, flash_end, sram_start,
    sram_end, xip_sram_start, xip_sram_end, spec_first_match,
    model_rp2350_default, model_rp2350, rom_start]
  split_ifs <;> rfl

/-- The three disjuncts of the source's overlap test coincide with
non-empty intersection of the half-open ranges, for a protected range
that is either genuinely below the top of the address space or the
degenerate all-ones sentinel, and a non-empty, non-overflowing query
range. -/
theorem overlap_disjuncts_iff (s e addr size : Nat) (hs : s ≤ e)
    (hsent : s = e → 0xffffffff ≤ e) (h1 : 1 ≤ size)
    (h2 : addr + size ≤ 0xffffffff) :
    ((s ≤ addr ∧ addr < e) ∨ (s < addr + size ∧ addr + size ≤ e) ∨
      (addr < s ∧ e < addr + size)) ↔
      intersects_unreadable addr size s e := by
  unfold intersects_unreadable
  constructor
  · rintro (⟨ha, hb⟩ | ⟨ha, hb⟩ | ⟨ha, hb⟩)
    · exact ⟨addr, by omega, by omega, by omega, by omega⟩
    · exact ⟨addr + size - 1, by omega, by omega, by omega, by omega⟩
    · have hlt : s < e := by
        rcases Nat.lt_or_ge s e with h | h
        · exact h
        · have hse : s = e := by omega
          have := hsent hse
          omega
      exact ⟨s, by omega, by omega, by omega, by omega⟩
  · rintro ⟨x, hx1, hx2, hx3, hx4⟩
    omega

/-- C1 counterexample: the claim predicts INVALID for any address outside
the FLASH, SRAM, XIP_SRAM and ROM ranges of a hardware variant, but on
the older generation the banked/unstriped SRAM alias base address
classifies as SRAM_UNSTRIPED_ALIAS, not INVALID. -/
theorem get_memory_type_rp2040_alias_counterexample :
    get_memory_type model_rp2040 0x21000000 = .ok .sram_unstriped ∧
    spec_first_match FLASH_START FLASH_END_RP2040 SRAM_START SRAM_END_RP2040
      XIP_SRAM_START_RP2040 XIP_SRAM_END_RP2040 ROM_END_RP2040 0x21000000 =
      .invalid ∧
    memory_type.sram_unstriped ≠ memory_type.invalid := by decide

/-- C1 (amended): on every hardware-variant model, get_memory_type tests
the FLASH, SRAM and XIP_SRAM inclusive ranges in that priority order,
falls back to the ROM range, and returns INVALID when no range matches —
except that on the older generation addresses in the banked/unstriped
SRAM alias range classify as SRAM_UNSTRIPED_ALIAS; the base/Unknown model
returns ROM on `[rom_start, rom_end]` and INVALID otherwise; the three
rp2350 sub-variants classify exactly like the generic rp2350 model; and
for every address inside a declared flash/sram/xip-sram range the
matching kind is returned while the address one below the range's start
and one above its end does not get that kind. -/
theorem get_memory_type_priority_order :
    (∀ addr, get_memory_type model_unknown addr =
      .ok (if ROM_START ≤ addr ∧ addr ≤ 0x100 then .rom else .invalid)) ∧
    (∀ addr, get_memory_type model_rp_generic addr =
      .ok (spec_first_match FLASH_START (max FLASH_END_RP2040 FLASH_END_RP2350)
        SRAM_START (max SRAM_END_RP2040 SRAM_END_RP2350)
        (min XIP_SRAM_START_RP2040 XIP_SRAM_START_RP2350)
        (max XIP_SRAM_END_RP2040 XIP_SRAM_END_RP2350) 0x100 addr)) ∧
    (∀ addr, get_memory_type model_rp2350_default addr =
      .ok (spec_first_match FLASH_START FLASH_END_RP2350 SRAM_START
        SRAM_END_RP2350 XIP_SRAM_START_RP2350 XIP_SRAM_END_RP2350
        ROM_END_RP2350 addr)) ∧
    (∀ addr, get_memory_type model_rp2350_arm_s addr =
      get_memory_type model_rp2350_default addr) ∧
    (∀ addr, get_memory_type model_rp2350_arm_ns addr =
      get_memory_type model_rp2350_default addr) ∧
    (∀ addr, get_memory_type model_rp2350_riscv addr =
      get_memory_type model_rp2350_default addr) ∧
    (∀ addr, get_memory_type model_rp2040 addr =
      .ok (if MAIN_RAM_BANKED_START ≤ addr ∧ addr ≤ MAIN_RAM_BANKED_END then
        .sram_unstriped
      else spec_first_match FLASH_START FLASH_END_RP2040 SRAM_START
        SRAM_END_RP2040 XIP_SRAM_START_RP2040 XIP_SRAM_END_RP2040
        ROM_END_RP2040 addr)) ∧
    (∀ addr, FLASH_START ≤ addr → addr ≤ FLASH_END_RP2350 →
      get_memory_type model_rp2350_default addr = .ok .flash) ∧
    (∀ addr, SRAM_START ≤ addr → addr ≤ SRAM_END_RP2350 →
      get_memory_type model_rp2350_default addr = .ok .sram) ∧
    (∀ addr, XIP_SRAM_START_RP2350 ≤ addr → addr ≤ XIP_SRAM_END_RP2350 →
      get_memory_type model_rp2350_default addr = .ok .xip_sram) ∧
    (∀ addr, FLASH_START ≤ addr → addr ≤ FLASH_END_RP2040 →
      get_memory_type model_rp2040 addr = .ok .flash) ∧
    (∀ addr, SRAM_START ≤ addr → addr ≤ SRAM_END_RP2040 →
      get_memory_type model_rp2040 addr = .ok .sram) ∧
    (∀ addr, XIP_SRAM_START_RP2040 ≤ addr → addr ≤ XIP_SRAM_END_RP2040 →
      get_memory_type model_rp2040 addr = .ok .xip_sram) ∧
    (get_memory_type model_rp2350_default (FLASH_START - 1) ≠ .ok .flash ∧
      get_memory_type model_rp2350_default (FLASH_END_RP2350 + 1) ≠
        .ok .flash) ∧
    (get_memory_type model_rp2350_default (SRAM_START - 1) ≠ .ok .sram ∧
      get_memory_type model_rp2350_default (SRAM_END_RP2350 + 1) ≠
        .ok .sram) ∧
    (get_memory_type model_rp2350_default (XIP_SRAM_START_RP2350 - 1) ≠
        .ok .xip_sram ∧
      get_memory_type model_rp2350_default (XIP_SRAM_END_RP2350 + 1) ≠
        .ok .xip_sram) ∧
    (get_memory_type model_rp2040 (FLASH_START - 1) ≠ .ok .flash ∧
      get_memory_type model_rp2040 (FLASH_END_RP2040 + 1) ≠ .ok .flash) ∧
    (get_memory_type model_rp2040 (SRAM_START - 1) ≠ .ok .sram ∧
      get_memory_type model_rp2040 (SRAM_END_RP2040 + 1) ≠ .ok .sram) ∧
    (get_memory_type model_rp2040 (XIP_SRAM_START_RP2040 - 1) ≠
        .ok .xip_sram ∧
      get_memory_type model_rp2040 (XIP_SRAM_END_RP2040 + 1) ≠
        .ok .xip_sram) := by
  refine ⟨get_memory_type_munknown, get_memory_type_mgeneric,
    get_memory_type_mrp2350, fun addr => rfl, fun addr => rfl,
    fun addr => rfl, get_memory_type_mrp2040, ?_, ?_, ?_, ?_, ?_, ?_,
    by decide, by decide, by decide, by decide, by decide, by decide⟩
  all_goals intro addr h1 h2
  all_goals first
    | (rw [get_memory_type_mrp2350]
       simp only [spec_first_match, FLASH_START, FLASH_END_RP2350,
         SRAM_START, SRAM_END_RP2350, XIP_SRAM_START_RP2350,
         XIP_SRAM_END_RP2350, ROM_START, ROM_END_RP2350] at h1 h2 ⊢
       split_ifs <;> first | rfl | omega)
    | (rw [get_memory_type_mrp2040]
       simp only [spec_first_match, FLASH_START, FLASH_END_RP2040,
         SRAM_START, SRAM_END_RP2040, XIP_SRAM_START_RP2040,
         XIP_SRAM_END_RP2040, ROM_START, ROM_END_RP2040,
         MAIN_RAM_BANKED_START, MAIN_RAM_BANKED_END] at h1 h2 ⊢
       split_ifs <;> first | rfl | omega)

/-- C1 witness: the amended theorem applied at a concrete SRAM address of
the rp2350 model. -/
theorem get_memory_type_priority_order_witness :
    get_memory_type model_rp2350_default 0x20001000 = .ok .sram := by
  have h := get_memory_type_priority_order
  exact h.2.2.2.2.2.2.2.2.1 0x20001000 (by decide) (by decide)

/-- C4: on the rp2350 model the protected ROM region is the last 512
bytes of ROM — unreadable_rom_start is rom_end − 0x200 and
unreadable_rom_end is rom_end — and the three quoted overlap queries
evaluate as the claim states. -/
theorem rp2350_unreadable_rom_tail :
    unreadable_rom_start model_rp2350_default =
      model_rp2350_default.rom_end - 0x200 ∧
    unreadable_rom_end model_rp2350_default = model_rp2350_default.rom_end ∧
    contains_unreadable_rom (model_rp2350_default.rom_end - 300) 50
      model_rp2350_default = true ∧
    contains_unreadable_rom (model_rp2350_default.rom_end - 600) 50
      model_rp2350_default = false ∧
    contains_unreadable_rom (model_rp2350_default.rom_end - 512) 1
      model_rp2350_default = true := by decide

/-- C5: on the older-generation model every address in the inclusive
banked/unstriped SRAM alias range classifies as SRAM_UNSTRIPED_ALIAS and
lies outside the plain SRAM range, and the classifier is extensionally
the spec's priority order with the alias test between XIP_SRAM and the
base ROM fallback. -/
theorem rp2040_sram_unstriped_alias :
    (∀ addr, MAIN_RAM_BANKED_START ≤ addr → addr ≤ MAIN_RAM_BANKED_END →
      get_memory_type model_rp2040 addr = .ok .sram_unstriped ∧
      ¬(SRAM_START ≤ addr ∧ addr ≤ SRAM_END_RP2040)) ∧
    (∀ addr, get_memory_type model_rp2040 addr =
      .ok (spec_classify_rp2040 addr)) := by
  constructor
  · intro addr h1 h2
    refine ⟨?_, ?_⟩
    · rw [get_memory_type_mrp2040, if_pos ⟨h1, h2⟩]
    · simp only [SRAM_START, SRAM_END_RP2040, MAIN_RAM_BANKED_START,
        MAIN_RAM_BANKED_END] at h1 h2 ⊢
      omega
  · intro addr
    rw [get_memory_type_mrp2040]
    simp only [spec_first_match, spec_classify_rp2040, FLASH_START,
      FLASH_END_RP2040, SRAM_START, SRAM_END_RP2040, XIP_SRAM_START_RP2040,
      XIP_SRAM_END_RP2040, ROM_START, ROM_END_RP2040,
      MAIN_RAM_BANKED_START, MAIN_RAM_BANKED_END]
    split_ifs <;> first | rfl | omega

/-- C5 witness: the alias part applied at the alias range base. -/
theorem rp2040_sram_unstriped_alias_witness :
    get_memory_type model_rp2040 0x21000000 = .ok .sram_unstriped ∧
    ¬(SRAM_START ≤ 0x21000000 ∧ (0x21000000 : Nat) ≤ SRAM_END_RP2040) := by
  have h := rp2040_sram_unstriped_alias
  exact h.1 0x21000000 (by decide) (by decide)

/-- C8: on the base/Unknown model each region accessor fails with a
NotPossible error naming the missing field, while rom_start succeeds with
ROM_START and rom_end succeeds with the small fixed value 0x100. -/
theorem model_unknown_accessor_failures :
    flash_start model_unknown = .error (.not_possible "unknown flash start") ∧
    flash_end model_unknown = .error (.not_possible "unknown flash end") ∧
    sram_start model_unknown = .error (.not_possible "unknown sram start") ∧
    sram_end model_unknown = .error (.not_possible "unknown sram end") ∧
    xip_sram_start model_unknown =
      .error (.not_possible "unknown xip sram start") ∧
    xip_sram_end model_unknown =
      .error (.not_possible "unknown xip sram end") ∧
    rom_start model_unknown = ROM_START ∧
    model_unknown.rom_end = 0x100 :=
  ⟨rfl, rfl, rfl, rfl, rfl, rfl, rfl, rfl⟩

/-- C2 counterexample: with size 0 the half-open query range is empty and
intersects nothing, yet the code returns true when the start address lies
inside the protected range. -/
theorem contains_unreadable_rom_empty_range_counterexample :
    contains_unreadable_rom 0x7e00 0 model_rp2350_default = true ∧
    ¬intersects_unreadable 0x7e00 0
      (unreadable_rom_start model_rp2350_default)
      (unreadable_rom_end model_rp2350_default) := by
  constructor
  · decide
  · rintro ⟨x, hx1, hx2, -, -⟩
    omega

/-- C2 (amended): for every constructed model and all 32-bit addr and
size with size at least 1 and addr + size not overflowing 32 bits,
contains_unreadable_rom returns true exactly when the half-open byte
range `[addr, addr + size)` has a non-empty intersection with the
half-open protected range. -/
theorem contains_unreadable_rom_iff_intersects :
    ∀ m ∈ [model_unknown, model_rp_generic, model_rp2040,
      model_rp2350_default, model_rp2350_arm_s, model_rp2350_arm_ns,
      model_rp2350_riscv],
    ∀ addr size : Nat, 1 ≤ size → addr + size ≤ 0xffffffff →
      (contains_unreadable_rom addr size m = true ↔
        intersects_unreadable addr size (unreadable_rom_start m)
          (unreadable_rom_end m)) := by
  intro m hm addr size h1 h2
  have hb : (addr + size) % 2 ^ 32 = addr + size :=
    Nat.mod_eq_of_lt (by omega)
  fin_cases hm <;>
    (simp only [contains_unreadable_rom, hb, decide_eq_true_eq,
      unreadable_rom_start, unreadable_rom_end, model_unknown,
      model_rp_generic, model_rp2040, model_rp2350_default, model_rp2350,
      model_rp2350_arm_s, model_rp2350_arm_ns, model_rp2350_riscv,
      ROM_END_RP2350]
     exact overlap_disjuncts_iff _ _ addr size (by norm_num)
       (fun h => by omega) h1 h2)

/-- C2 witness: the amended equivalence applied to a 50-byte read inside
the rp2350 protected tail. -/
theorem contains_unreadable_rom_iff_intersects_witness :
    contains_unreadable_rom 32468 50 model_rp2350_default = true ↔
      intersects_unreadable 32468 50
        (unreadable_rom_start model_rp2350_default)
        (unreadable_rom_end model_rp2350_default) := by
  have h := contains_unreadable_rom_iff_intersects
  exact h model_rp2350_default (by simp) 32468 50 (by decide) (by decide)

/-- C3: family resolution — the older generation's exact family id gives
a fresh rp2040 model; every id in the inclusive secure-ARM..non-secure-ARM
range gives a fresh generic rp2350 model (never an ISA-specific
sub-variant, in particular never the riscv one); every other id gives the
shared Unknown singleton, the same value on every call. -/
theorem model_from_family_resolution :
    (model_from_family RP2040_FAMILY_ID = .fresh model_rp2040 ∧
      (model_from_family RP2040_FAMILY_ID).get.chip = .rp2040) ∧
    (∀ fid, RP2350_ARM_S_FAMILY_ID ≤ fid → fid ≤ RP2350_ARM_NS_FAMILY_ID →
      model_from_family fid = .fresh model_rp2350_default ∧
      (model_from_family fid).get.chip = .rp2350 ∧
      (model_from_family fid).get.variant = .mrp2350 ∧
      (model_from_family fid).get.variant ≠ .mrp2350_riscv) ∧
    (∀ fid, fid ≠ RP2040_FAMILY_ID →
      ¬(RP2350_ARM_S_FAMILY_ID ≤ fid ∧ fid ≤ RP2350_ARM_NS_FAMILY_ID) →
      model_from_family fid = .shared_unknown ∧
      (model_from_family fid).get = models.unknown) := by
  refine ⟨by decide, ?_, ?_⟩
  · intro fid h1 h2
    simp only [model_from_family, RP2040_FAMILY_ID, RP2350_ARM_S_FAMILY_ID,
      RP2350_ARM_NS_FAMILY_ID] at h1 h2 ⊢
    rw [if_neg (by omega), if_pos ⟨h1, h2⟩]
    exact ⟨rfl, rfl, rfl, by decide⟩
  · intro fid h1 h2
    simp only [model_from_family, RP2040_FAMILY_ID, RP2350_ARM_S_FAMILY_ID,
      RP2350_ARM_NS_FAMILY_ID] at h1 h2 ⊢
    rw [if_neg h1, if_neg h2]
    exact ⟨rfl, rfl⟩

/-- C3 witness: the riscv family id resolves to the generic rp2350 model
and an unrelated id resolves to the shared Unknown singleton. -/
theorem model_from_family_resolution_witness :
    model_from_family RP2350_RISCV_FAMILY_ID = .fresh model_rp2350_default ∧
    model_from_family 0 = .shared_unknown := by
  have h := model_from_family_resolution
  exact ⟨(h.2.1 RP2350_RISCV_FAMILY_ID (by decide) (by decide)).1,
    (h.2.2 0 (by decide) (by decide)).1⟩

/-- C9: every model that keeps the default 0xffffffff protected-region
sentinel (Unknown, generic and rp2040) makes contains_unreadable_rom
return false for all 32-bit addr and size, because addr + size is
computed modulo 2^32 and so never exceeds 0xffffffff. -/
theorem contains_unreadable_rom_sentinel :
    ∀ m ∈ [model_unknown, model_rp_generic, model_rp2040],
    ∀ addr size : Nat, addr < 2 ^ 32 → size < 2 ^ 32 →
      contains_unreadable_rom addr size m = false := by
  intro m hm addr size h1 h2
  fin_cases hm <;>
    (simp only [contains_unreadable_rom, unreadable_rom_start,
      unreadable_rom_end, model_unknown, model_rp_generic, model_rp2040,
      decide_eq_false_iff_not]
     simp only [show (2 : Nat) ^ 32 = 4294967296 from by norm_num] at *
     omega)

/-- C9 witness: the sentinel theorem applied to the Unknown model at a
concrete query. -/
theorem contains_unreadable_rom_sentinel_witness :
    contains_unreadable_rom 0 4294967295 model_unknown = false := by
  have h := contains_unreadable_rom_sentinel
  exact h model_unknown (by simp) 0 4294967295 (by norm_num) (by norm_num)

/-- C6 counterexample: on the Unknown model neither view returns a range
list at all — both fail with the NotPossible error of the first region
accessor they call. -/
theorem address_ranges_unknown_model_counterexample :
    address_ranges_flash model_unknown =
      .error (.not_possible "unknown flash start") ∧
    address_ranges_ram model_unknown =
      .error (.not_possible "unknown sram start") := ⟨rfl, rfl⟩

/-- C6 (amended): for every model whose region accessors are defined
(every constructed model except Unknown), address_ranges_flash returns
exactly the flash range with CONTENTS, the sram and xip-sram ranges with
NO_CONTENTS, plus the banked/unstriped alias range with NO_CONTENTS
appended exactly when the chip is the older generation (4 ranges for
rp2040, 3 otherwise), and address_ranges_ram returns exactly the sram and
xip-sram ranges with CONTENTS followed by the rom range with IGNORE. -/
theorem address_ranges_views :
    ∀ m ∈ [model_rp_generic, model_rp2040, model_rp2350_default,
      model_rp2350_arm_s, model_rp2350_arm_ns, model_rp2350_riscv],
      ∃ fs fe ss se xs xe,
        flash_start m = .ok fs ∧ flash_end m = .ok fe ∧
        sram_start m = .ok ss ∧ sram_end m = .ok se ∧
        xip_sram_start m = .ok xs ∧ xip_sram_end m = .ok xe ∧
        address_ranges_flash m = .ok
          ([⟨fs, fe, .CONTENTS⟩, ⟨ss, se, .NO_CONTENTS⟩,
            ⟨xs, xe, .NO_CONTENTS⟩] ++
           (if m.chip = .rp2040 then
             [⟨MAIN_RAM_BANKED_START, MAIN_RAM_BANKED_END, .NO_CONTENTS⟩]
            else [])) ∧
        Except.map List.length (address_ranges_flash m) =
          .ok (if m.chip = .rp2040 then 4 else 3) ∧
        address_ranges_ram m = .ok
          [⟨ss, se, .CONTENTS⟩, ⟨xs, xe, .CONTENTS⟩,
           ⟨rom_start m, m.rom_end, .IGNORE⟩] := by
  intro m hm
  fin_cases hm <;>
    exact ⟨_, _, _, _, _, _, rfl, rfl, rfl, rfl, rfl, rfl, by decide,
      by decide, by decide⟩

/-- C6 witness: the amended theorem applied to the older-generation
model, extracting the 4-range length fact of its flash view. -/
theorem address_ranges_views_witness :
    Except.map List.length (address_ranges_flash model_rp2040) = .ok 4 := by
  obtain ⟨fs, fe, ss, se, xs, xe, h1, h2, h3, h4, h5, h6, h7, h8, h9⟩ :=
    address_ranges_views model_rp2040 (by simp)
  rw [h8]
  decide

/-- C7: supports_picoboot_cmds is total and returns true exactly when
every command of the set is supported; at the first unsupported command
(in iteration order) it returns false with the model's display name
written to the out-parameter, independently of the rest of the set; on
the older generation a set containing OTP read is rejected with the name
"RP2040", while the plain read command passes. -/
theorem supports_picoboot_cmds_short_circuit :
    (∀ (m : model_info) (cmds : List Nat) (s : String),
      (supports_picoboot_cmds m cmds s).1 = true ↔
        ∀ c ∈ cmds, supports_picoboot_cmd m c = true) ∧
    (∀ (m : model_info) (c : Nat) (rest : List Nat) (s : String),
      supports_picoboot_cmd m c = false →
      supports_picoboot_cmds m (c :: rest) s = (false, m.name)) ∧
    (∀ s, supports_picoboot_cmds model_rp2040 [PC_OTP_READ] s =
      (false, model_rp2040.name) ∧ model_rp2040.name = "RP2040") ∧
    (∀ s, supports_picoboot_cmds model_rp2040 [PC_READ] s = (true, s)) := by
  refine ⟨?_, ?_, ?_, ?_⟩
  · intro m cmds s
    induction cmds generalizing s with
    | nil => simp [supports_picoboot_cmds]
    | cons c rest ih =>
      simp only [supports_picoboot_cmds, supports_picoboot_cmd_out]
      by_cases h : supports_picoboot_cmd m c = true
      · simp [h, ih]
      · simp [h]
  · intro m c rest s h
    simp [supports_picoboot_cmds, supports_picoboot_cmd_out, h]
  · intro s
    have hx : supports_picoboot_cmd model_rp2040 PC_OTP_READ = false := by
      decide
    refine ⟨?_, rfl⟩
    simp [supports_picoboot_cmds, supports_picoboot_cmd_out, hx]
  · intro s
    have hx : supports_picoboot_cmd model_rp2040 PC_READ = true := by decide
    simp [supports_picoboot_cmds, supports_picoboot_cmd_out, hx]

/-- C7 witness: the short-circuit clause applied to the older-generation
model on a set whose first element is unsupported. -/
theorem supports_picoboot_cmds_short_circuit_witness :
    supports_picoboot_cmds model_rp2040 [PC_OTP_READ, PC_READ] "z" =
      (false, model_rp2040.name) := by
  have h := supports_picoboot_cmds_short_circuit
  exact h.2.1 model_rp2040 PC_OTP_READ [PC_READ] "z" (by decide)

/-- C10: the empty command set always passes and leaves the out-parameter
unchanged, and whenever the result is true the out-parameter is
unchanged — it is written only on a false result. -/
theorem supports_picoboot_cmds_empty_true :
    (∀ (m : model_info) (s : String),
      supports_picoboot_cmds m [] s = (true, s)) ∧
    (∀ (m : model_info) (cmds : List Nat) (s : String),
      (supports_picoboot_cmds m cmds s).1 = true →
      (supports_picoboot_cmds m cmds s).2 = s) := by
  refine ⟨fun m s => rfl, ?_⟩
  intro m cmds
  induction cmds with
  | nil => intro s _; rfl
  | cons c rest ih =>
    intro s h
    simp only [supports_picoboot_cmds, supports_picoboot_cmd_out] at h ⊢
    cases hc : supports_picoboot_cmd m c with
    | false => simp [hc] at h
    | true =>
      simp only [hc, if_pos] at h ⊢
      exact ih s h

/-- C10 witness: the out-parameter is untouched by a passing run. -/
theorem supports_picoboot_cmds_empty_true_witness :
    (supports_picoboot_cmds model_unknown [] "abc").2 = "abc" := by
  have h := supports_picoboot_cmds_empty_true
  exact h.2 model_unknown [] "abc" rfl
